import Mathlib

/-
Verification development for the ScalpelLab export orchestration and
status-reconciliation engine.

The definitions below are a shallow embedding of the Python sources:
  * mp4_status_update.py  — validation guard, CLExport supervision loop,
    path expansion, per-file retry/fallback controller (run_pipeline body)
  * scripts/seq_status_update.py — per-camera status computation, the
    confirm-then-commit scanner decision, parse_recording_date_and_case
  * scan_mp4_to_sqlite.py — parse_date_case

Filesystem state is modelled per output directory as an association list
from structured artifact names (stem, optional numeric counter, extension)
to byte sizes; the external converter is an oracle mapping a target name to
an exit code and an optionally produced file.  Floating point sizes in MB
(`st_size / (1024*1024)`) are modelled exactly as rationals; to keep the
comparisons kernel-computable they are implemented by integer
cross-multiplication, and `sizeExceedsB_iff` / `natLtQ_iff` prove the
implementations equal to the literal rational comparisons of the source.
-/

-- ===============================================
-- Small executable string/rational utilities
-- ===============================================

/-- Executable form of the rational comparison `(n : ℚ) < q` (used for the
`(time.time() - start_time) > timeout_secs` test): cross-multiplied integer
comparison, proved equivalent in `natLtQ_iff`. -/
def natLtQ (n : Nat) (q : ℚ) : Bool :=
  decide ((n : Int) * (q.den : Int) < q.num)

/-- Executable form of `min_size_mb < size_bytes / (1024*1024)` over exact
rationals (the source compares floats); equivalence with the division form
is proved in `sizeExceedsB_iff`. -/
def sizeExceedsB (sizeBytes : Nat) (minSizeMb : ℚ) : Bool :=
  decide (minSizeMb.num * (1024 * 1024) < (sizeBytes : Int) * (minSizeMb.den : Int))

/-- Value of a decimal digit character. -/
def digitVal (c : Char) : Nat := c.toNat - 48

/-- Does `hay` start with `needle`? -/
def startsWithRun : List Char → List Char → Bool
  | [], _ => true
  | _ :: _, [] => false
  | a :: as, b :: bs => a == b && startsWithRun as bs

/-- Does `hay` contain `needle` as a contiguous run (Python `in` on strings)? -/
def containsRun : List Char → List Char → Bool
  | [], needle => needle.isEmpty
  | a :: t, needle => startsWithRun needle (a :: t) || containsRun t needle

/-- Code-point lexicographic comparison of strings (Python `<` on `str`,
also the order used by `sorted`). -/
def charsLt : List Char → List Char → Bool
  | [], [] => false
  | [], _ :: _ => true
  | _ :: _, [] => false
  | a :: as, b :: bs =>
    if a.val < b.val then true
    else if b.val < a.val then false
    else charsLt as bs

/-- String comparison via `charsLt`. -/
def strLt (a b : String) : Bool := charsLt a.toList b.toList

/-- Insert into an ascending list, before the first element not below `x`
(matches the stable ascending order of Python `sorted`). -/
def insertSorted (x : String) : List String → List String
  | [] => [x]
  | y :: ys => if strLt y x then y :: insertSorted x ys else x :: y :: ys

/-- Ascending stable sort of strings (Python `sorted`). -/
def sortStrings : List String → List String
  | [] => []
  | x :: xs => insertSorted x (sortStrings xs)

/-- Python whitespace for `str.strip()` (ASCII portion). -/
def isPySpace (c : Char) : Bool :=
  c == ' ' || c == '\t' || c == '\n' || c == '\r' || c == Char.ofNat 11 || c == Char.ofNat 12

/-- `response.strip().lower()` from the scanner's confirmation prompt
(ASCII lowering, which covers the y/yes answers the code compares against). -/
def py_strip_lower (s : String) : String :=
  String.mk ((((s.toList.dropWhile isPySpace).reverse.dropWhile isPySpace).reverse).map Char.toLower)

/-- Digits-to-number (`int(...)` on a matched digit group). -/
def natOfDigits (l : List Char) : Nat := l.foldl (fun n c => n * 10 + digitVal c) 0

-- ===============================================
-- Tuning knobs (module constants of mp4_status_update.py)
-- ===============================================

def MAX_RETRIES_MP4 : Nat := 2

def MAX_RETRIES_AVI : Nat := 1

def TIMEOUT_SECS : Nat := 20

def KILL_AFTER_ERROR_LINES : Nat := 6

def MIN_VALID_FILE_SIZE_MB : ℚ := 1

def ERROR_LINE_SIGNATURE : String := "Error writing video"

def CLEXPORT_PATHS : List String :=
  ["C:\\Program Files\\NorPix\\BatchProcessor\\CLExport.exe",
   "C:\\Program Files (x86)\\NorPix\\BatchProcessor\\CLExport.exe",
   "C:\\NorPix\\BatchProcessor\\CLExport.exe"]

-- ===============================================
-- Idempotency & validation guard (mp4_status_update.py lines 66-132)
-- ===============================================

/-- An artifact-candidate filename in one output directory: the channel base
stem, an optional numeric disambiguation counter (`base_<i>`), and the
extension (".mp4" / ".avi"). -/
structure VideoName where
  stem : String
  counter : Option Nat
  ext : String
deriving DecidableEq

/-- The files of one output directory with their byte sizes (the part of the
filesystem the guard functions inspect). -/
abbrev DirState := List (VideoName × Nat)

/-- `st_size` of a file, `none` when the path does not exist. -/
def fileSize? (dir : DirState) (f : VideoName) : Option Nat :=
  match dir.find? (fun e => e.1 == f) with
  | some e => some e.2
  | none => none

/-- `Path.exists()`. -/
def path_exists (dir : DirState) (f : VideoName) : Bool :=
  (fileSize? dir f).isSome

/-- `is_valid_video_file(file_path, min_size_mb)`: the file exists and
`size / (1024*1024) > min_size_mb` (`sizeExceedsB_iff` relates the
executable comparison to this rational division). -/
def is_valid_video_file (dir : DirState) (f : VideoName) (minSizeMb : ℚ) : Bool :=
  match fileSize? dir f with
  | none => false
  | some sz => sizeExceedsB sz minSizeMb

/-- `find_existing_export(out_dir, base_stem)`: for each extension in
['.mp4', '.avi'], first the bare name, then numbered variants `_1` .. `_99`;
returns the first valid hit. -/
def find_existing_export (dir : DirState) (base_stem : String) : Option VideoName :=
  [".mp4", ".avi"].findSome? (fun ext =>
    if is_valid_video_file dir ⟨base_stem, none, ext⟩ MIN_VALID_FILE_SIZE_MB then
      some ⟨base_stem, none, ext⟩
    else
      (List.range 99).findSome? (fun j =>
        if is_valid_video_file dir ⟨base_stem, some (j + 1), ext⟩ MIN_VALID_FILE_SIZE_MB then
          some ⟨base_stem, some (j + 1), ext⟩
        else none))

/-- Does a name match one of the glob patterns `base.mp4`, `base_*.mp4`,
`base.avi`, `base_*.avi` of `clean_invalid_exports`? -/
def matchesCleanPattern (base_stem : String) (f : VideoName) : Bool :=
  f.stem == base_stem && (f.ext == ".mp4" || f.ext == ".avi")

/-- Is an entry a deletion target of `clean_invalid_exports`: it matches a
glob pattern and fails validation? -/
def cleanDoomed (dir : DirState) (base_stem : String) (e : VideoName × Nat) : Bool :=
  matchesCleanPattern base_stem e.1 && !(is_valid_video_file dir e.1 MIN_VALID_FILE_SIZE_MB)

/-- `clean_invalid_exports(out_dir, base_stem)`: delete every matching file
that fails validation; returns the remaining directory and the removed
count (deletions are assumed to succeed, as in the non-debug happy path). -/
def clean_invalid_exports (dir : DirState) (base_stem : String) : DirState × Nat :=
  (dir.filter (fun e => !(cleanDoomed dir base_stem e)),
    (dir.filter (cleanDoomed dir base_stem)).length)

/-- `get_next_available_filename(out_dir, base_stem, extension)`: the bare
name if free, else the lowest free counter 1..999 (`while counter < 1000`);
`none` models the `ValueError` raised when the cap is exhausted. -/
def get_next_available_filename (dir : DirState) (base_stem ext : String) : Option VideoName :=
  if !path_exists dir ⟨base_stem, none, ext⟩ then some ⟨base_stem, none, ext⟩
  else
    (List.range 999).findSome? (fun j =>
      if !path_exists dir ⟨base_stem, some (j + 1), ext⟩ then some ⟨base_stem, some (j + 1), ext⟩
      else none)

-- ===============================================
-- Export execution engine (export_seq_once_streaming, lines 135-242)
-- ===============================================

/-- One completed iteration of the stream-supervision loop: the elapsed time
observed at the top of the iteration, the `proc.poll()` result, and the
`readline()` result (`none` = empty string, i.e. EOF without data).  A
`readline()` call that blocks forever completes no iteration, so a stalled
silent process contributes no further observations. -/
structure LoopObs where
  elapsed : ℚ
  poll : Option Int
  line : Option String

/-- Is the error signature contained in an output line? -/
def containsSignature (l : String) : Bool :=
  containsRun l.toList ERROR_LINE_SIGNATURE.toList

def timeoutMsg (t : Nat) (container : String) : String :=
  "CLExport timed out after " ++ toString t ++ "s (" ++ container ++ ")"

def killedMsg (n : Nat) (container : String) : String :=
  "Killed after " ++ toString n ++ " repeated errors (" ++ container ++ ")"

def successMsg (container : String) : String :=
  "Exported successfully (" ++ container ++ ")"

def exitFailMsg (ret : Int) (container : String) : String :=
  "CLExport failed with exit code " ++ toString ret ++ " (" ++ container ++ ")"

def notFoundMsg : String :=
  "CLExport.exe not found. Searched:\n"
    ++ String.intercalate "\n" (CLEXPORT_PATHS.map (fun p => "  - " ++ p))

/-- The capture-mode supervision loop (lines 202-235): per iteration check
the wall-clock timeout, then `poll()`, then read one line; a signature line
increments the error counter and reaching the kill threshold kills the
process.  The result is `none` when the observed iterations end without the
loop returning (the loop is then still blocked in `readline()` or simply
has not been run further). -/
def streamLoop (container : String) (timeout_secs : Option Nat) (kill_after_error_lines : Option Nat) :
    Nat → List LoopObs → Option (Int × String)
  | _, [] => none
  | error_count, obs :: rest =>
    if (match timeout_secs with
        | some t => natLtQ t obs.elapsed
        | none => false) then
      some (1, timeoutMsg (timeout_secs.getD 0) container)
    else
      match obs.poll with
      | some ret =>
        some (if ret = 0 then (0, successMsg container) else (ret, exitFailMsg ret container))
      | none =>
        match obs.line with
        | none => streamLoop container timeout_secs kill_after_error_lines error_count rest
        | some l =>
          if containsSignature l then
            if (match kill_after_error_lines with
                | some k => decide (k ≤ error_count + 1)
                | none => false) then
              some (1, killedMsg (error_count + 1) container)
            else streamLoop container timeout_secs kill_after_error_lines (error_count + 1) rest
          else streamLoop container timeout_secs kill_after_error_lines error_count rest

/-- Number of observed lines carrying the error signature. -/
def countSig (trace : List LoopObs) : Nat :=
  trace.countP (fun obs =>
    match obs.line with
    | some l => containsSignature l
    | none => false)

/-- Environment of one non-console export attempt: whether `find_clexport`
locates the binary, whether `Popen` raises, the iterations the supervision
loop completes, and an exception optionally raised during supervision after
those iterations. -/
structure ExportEnv where
  clexportFound : Bool
  startExcMsg : Option String
  obs : List LoopObs
  streamExcMsg : Option String

/-- `export_seq_once_streaming` for `spawn_console = False` (lines 135-242):
simulate short-circuits; a missing binary, a `Popen` failure and an
exception while streaming each return `(1, reason)`; otherwise the result
is the supervision loop's outcome, and `none` when the call has not
returned (still supervising / blocked). -/
def export_seq_once_streaming (seqPath outName container : String) (simulate : Bool)
    (timeout_secs kill_after_error_lines : Option Nat) (env : ExportEnv) :
    Option (Int × String) :=
  if simulate then
    some (0, "Simulated export: " ++ seqPath ++ " -> " ++ outName ++ " (" ++ container ++ ")")
  else if !env.clexportFound then
    some (1, notFoundMsg)
  else
    match env.startExcMsg with
    | some e => some (1, "Exception starting CLExport: " ++ e ++ " (" ++ container ++ ")")
    | none =>
      match streamLoop container timeout_secs kill_after_error_lines 0 env.obs with
      | some r => some r
      | none =>
        match env.streamExcMsg with
        | some e =>
          some (1, "Exception while streaming CLExport output: " ++ e ++ " (" ++ container ++ ")")
        | none => none

-- ===============================================
-- Path expansion (expand_seq_paths, lines 248-272)
-- ===============================================

/-- One input path of `expand_seq_paths`: a directory (with the `*.seq`
filenames its glob finds, unsorted), or a plain non-directory path. -/
inductive SeqPathEntry
  | dir (seqs : List String)
  | file (path : String)

/-- `Path(p).suffix.lower() == ".seq"` for a path with a nonempty stem. -/
def hasSeqSuffix (p : String) : Bool :=
  match p.toList.reverse with
  | q :: e :: s :: d :: _ =>
    d == '.' && s.toLower == 's' && e.toLower == 'e' && q.toLower == 'q'
  | _ => false

/-- `expand_seq_paths`: a directory keeps the first of its sorted `.seq`
files (empty directories are skipped, multiple candidates only produce a
debug warning); a file path is kept iff it has the `.seq` suffix. -/
def expand_seq_paths : List SeqPathEntry → List String
  | [] => []
  | SeqPathEntry.dir seqs :: rest =>
    (match sortStrings seqs with
     | [] => expand_seq_paths rest
     | first :: _ => first :: expand_seq_paths rest)
  | SeqPathEntry.file p :: rest =>
    if hasSeqSuffix p then p :: expand_seq_paths rest else expand_seq_paths rest

-- ===============================================
-- Per-file retry & fallback controller (run_pipeline body, lines 444-597)
-- ===============================================

inductive ExportStatus
  | SKIPPED
  | SUCCESS_MP4
  | SUCCESS_AVI
  | FAILED
  | HARD_FAIL
deriving DecidableEq

/-- Result of one converter invocation at a target name: the process exit
code and the size of the output file it wrote, if it wrote one. -/
structure ConvResult where
  exitcode : Int
  produced : Option Nat

/-- One source file together with the (deterministic) behavior of the
external converter on any requested target name. -/
structure SourceCtx where
  srcExists : Bool
  srcSize : Nat
  conv : VideoName → ConvResult

/-- Write (create or overwrite) a file. -/
def setFile (dir : DirState) (f : VideoName) (sz : Nat) : DirState :=
  if path_exists dir f then dir.map (fun e => if e.1 == f then (f, sz) else e)
  else dir ++ [(f, sz)]

/-- `Path.unlink()`. -/
def removeFile (dir : DirState) (f : VideoName) : DirState :=
  dir.filter (fun e => !(e.1 == f))

/-- The per-format attempt loop (lines 496-528 / 538-567): run the converter
at the fixed target name up to `n` times; success requires exit code 0 and
a valid output file; after a failed attempt an existing invalid output is
removed before retrying. -/
def attemptLoop (conv : VideoName → ConvResult) (f : VideoName) :
    Nat → DirState → Bool × DirState
  | 0, dir => (false, dir)
  | Nat.succ n, dir =>
    let r := conv f
    let dir1 := match r.produced with
      | some sz => setFile dir f sz
      | none => dir
    if r.exitcode = 0 && is_valid_video_file dir1 f MIN_VALID_FILE_SIZE_MB then (true, dir1)
    else
      let dir2 :=
        if path_exists dir1 f && !(is_valid_video_file dir1 f MIN_VALID_FILE_SIZE_MB) then
          removeFile dir1 f
        else dir1
      attemptLoop conv f n dir2

/-- Pre-checks plus the MP4 attempts and optional AVI fallback (lines
477-572).  `none` in the first component models the `ValueError` from
`get_next_available_filename` escaping to the per-file catch-all. -/
def attemptPhase (ctx : SourceCtx) (fallback_avi : Bool) (base_stem : String) (dir : DirState) :
    Option ExportStatus × DirState :=
  if !ctx.srcExists then (some ExportStatus.FAILED, dir)
  else if ctx.srcSize = 0 then (some ExportStatus.FAILED, dir)
  else
    match get_next_available_filename dir base_stem ".mp4" with
    | none => (none, dir)
    | some f =>
      let r := attemptLoop ctx.conv f MAX_RETRIES_MP4 dir
      if r.1 then (some ExportStatus.SUCCESS_MP4, r.2)
      else if fallback_avi then
        match get_next_available_filename r.2 base_stem ".avi" with
        | none => (none, r.2)
        | some g =>
          let r2 := attemptLoop ctx.conv g MAX_RETRIES_AVI r.2
          if r2.1 then (some ExportStatus.SUCCESS_AVI, r2.2)
          else (some ExportStatus.FAILED, r2.2)
      else (some ExportStatus.FAILED, r.2)

/-- Outcome of processing one source file: terminal status, resulting
directory, and the statuses appended to the per-directory mapping manifest
(`_seq_mapping.txt`) and to the run log (`export_log.txt`). -/
structure FileOutcome where
  status : ExportStatus
  dir : DirState
  mapWrites : List ExportStatus
  logWrites : List ExportStatus
deriving DecidableEq

/-- The per-file body of `run_pipeline` after the cleaning step: the
skip-existing check (which logs but writes no manifest line and runs no
attempt), then the attempt phase followed by the manifest and log writes; a
hard failure (escaped exception) writes neither. -/
def processOneCore (skip_existing fallback_avi : Bool) (ctx : SourceCtx)
    (base_stem : String) (dirC : DirState) : FileOutcome :=
  if skip_existing && (find_existing_export dirC base_stem).isSome then
    { status := ExportStatus.SKIPPED, dir := dirC,
      mapWrites := [], logWrites := [ExportStatus.SKIPPED] }
  else
    match attemptPhase ctx fallback_avi base_stem dirC with
    | (none, dir2) =>
      { status := ExportStatus.HARD_FAIL, dir := dir2, mapWrites := [], logWrites := [] }
    | (some st, dir2) =>
      { status := st, dir := dir2, mapWrites := [st], logWrites := [st] }

/-- The per-file body of `run_pipeline` (lines 444-597): optional cleaning,
then `processOneCore`. -/
def processOne (skip_existing clean_invalid fallback_avi : Bool) (ctx : SourceCtx)
    (base_stem : String) (dir : DirState) : FileOutcome :=
  processOneCore skip_existing fallback_avi ctx base_stem
    (if clean_invalid then (clean_invalid_exports dir base_stem).1 else dir)

-- ===============================================
-- Status reconciliation scanner (scripts/seq_status_update.py)
-- ===============================================

/-- One step of the running-max over `.seq` file sizes (`stat` failures are
skipped). -/
def maxStep (m : Nat) (s : Option Nat) : Nat :=
  match s with
  | some sz => if m < sz then sz else m
  | none => m

/-- The `max_size` accumulated by `compute_camera_status`. -/
def maxSizeFound (files : List (Option Nat)) : Nat := files.foldl maxStep 0

/-- `compute_camera_status(camera_dir, threshold_bytes)`: the directory is
`none` when absent, otherwise the list of `p.stat().st_size` results of its
`.seq` files (a `none` entry is a file whose `stat` raised `OSError`).
Returns `(status, size_mb)`. -/
def compute_camera_status (cameraDir : Option (List (Option Nat))) (threshold_bytes : Nat) :
    Nat × Option Nat :=
  match cameraDir with
  | none => (3, none)
  | some files =>
    if files.isEmpty then (3, none)
    else
      (if threshold_bytes ≤ maxSizeFound files then 1 else 2,
        some (maxSizeFound files / (1024 * 1024)))

/-- Key of one camera row: (recording_date, case_no, camera_name). -/
structure CamKey where
  recording_date : String
  case_no : Nat
  camera_name : String
deriving DecidableEq

/-- Freshly scanned `(status, size_mb)` per key. -/
abbrev ScanUpdates := List (CamKey × (Nat × Option Nat))

/-- Persisted rows: `(value, "size(mb)")`, both nullable. -/
abbrev StoreState := List (CamKey × (Option Int × Option Int))

/-- `get_existing_data` restricted to one key. -/
def get_existing (store : StoreState) (k : CamKey) : Option (Option Int × Option Int) :=
  match store.find? (fun e => e.1 == k) with
  | some e => some e.2
  | none => none

/-- The entries staged as "new": keys absent from the store. -/
def staged_new (updates : ScanUpdates) (store : StoreState) : ScanUpdates :=
  updates.filter (fun u => (get_existing store u.1).isNone)

/-- The entries staged as "changed": present keys whose status or size
differs from the stored row (Python `!=` between a possibly-NULL column and
the freshly computed value). -/
def staged_changes (updates : ScanUpdates) (store : StoreState) : ScanUpdates :=
  updates.filter (fun u =>
    match get_existing store u.1 with
    | some old => !(old.1 == some (u.2.1 : Int) && old.2 == u.2.2.map (fun n => (n : Int)))
    | none => false)

/-- Outcome of the scanner's decision phase: whether the confirmation
prompt was shown, and whether the upsert/commit step ran. -/
structure ScanDecision where
  prompted : Bool
  wrote : Bool
deriving DecidableEq

/-- The decision logic of `main` (lines 150-219): empty scan or dry-run
returns early; an empty staged diff is reported without prompting; else the
operator is prompted and the upsert/commit of all updates runs iff the
stripped lowered response is 'y' or 'yes'. -/
def scanner_confirm_and_commit (updates : ScanUpdates) (store : StoreState)
    (dry_run : Bool) (response : String) : ScanDecision :=
  if updates.isEmpty then ⟨false, false⟩
  else if dry_run then ⟨false, false⟩
  else if (staged_new updates store).isEmpty && (staged_changes updates store).isEmpty then
    ⟨false, false⟩
  else if py_strip_lower response = "y" ∨ py_strip_lower response = "yes" then ⟨true, true⟩
  else ⟨true, false⟩

-- ===============================================
-- Identifier codecs (two-digit-year windowing)
-- ===============================================

/-- `re.fullmatch(r"Case(\d+)", s)` followed by `int` on the group. -/
def caseNumber? (s : String) : Option Nat :=
  match s.toList with
  | 'C' :: 'a' :: 's' :: 'e' :: ds =>
    if !ds.isEmpty && ds.all Char.isDigit then some (natOfDigits ds) else none
  | _ => none

/-- `parse_recording_date_and_case(data_dir_name, case_dir_name)` from
scripts/seq_status_update.py: fullmatch of `DATA_YY-MM-DD` and `CaseN`,
century window `20YY` when `int(yy) <= 69` else `19YY`. -/
def parse_recording_date_and_case (data_dir_name case_dir_name : String) :
    Option (String × Nat) :=
  match data_dir_name.toList with
  | 'D' :: 'A' :: 'T' :: 'A' :: '_' :: y1 :: y2 :: '-' :: m1 :: m2 :: '-' :: d1 :: d2 :: [] =>
    if y1.isDigit && y2.isDigit && m1.isDigit && m2.isDigit && d1.isDigit && d2.isDigit then
      match caseNumber? case_dir_name with
      | some n =>
        let yy := digitVal y1 * 10 + digitVal y2
        let century := if yy ≤ 69 then "20" else "19"
        some (century ++ String.mk [y1, y2, '-', m1, m2, '-', d1, d2], n)
      | none => none
    else none
  | _ => none

/-- Gregorian leap year (as `datetime` uses). -/
def isLeap (y : Nat) : Bool := y % 4 = 0 && (y % 100 ≠ 0 || y % 400 = 0)

/-- Days in a month, as validated by `datetime(year, month, day)`. -/
def daysInMonth (y m : Nat) : Nat :=
  if m = 2 then (if isLeap y then 29 else 28)
  else if m = 4 ∨ m = 6 ∨ m = 9 ∨ m = 11 then 30
  else 31

/-- Is `datetime(year, mm, dd)` constructible? -/
def is_valid_ymd (year mm dd : Nat) : Bool :=
  1 ≤ year && 1 ≤ mm && mm ≤ 12 && 1 ≤ dd && dd ≤ daysInMonth year mm

/-- `re.search(r"Case\s*([0-9]+)$", s, re.IGNORECASE)` followed by `int`. -/
def caseNumberTail? (s : String) : Option Nat :=
  let r := s.toList.reverse
  let ds := r.takeWhile Char.isDigit
  let rest := (r.dropWhile Char.isDigit).dropWhile isPySpace
  if ds.isEmpty then none
  else
    match rest with
    | e :: s' :: a :: c :: _ =>
      if e.toLower == 'e' && s'.toLower == 's' && a.toLower == 'a' && c.toLower == 'c' then
        some (natOfDigits ds.reverse)
      else none
    | _ => none

/-- `parse_date_case(data_dir, case_dir)` from scan_mp4_to_sqlite.py:
end-anchored case-insensitive search of `DATA_YY-MM-DD`, `year = int(yy);
year += 2000` (every two-digit year lands in the 2000s), `datetime`
validation, result `YYYY-MM-DD_N`; `none` models the raised `ValueError`. -/
def parse_date_case (data_dir_name case_dir_name : String) : Option String :=
  match data_dir_name.toList.reverse with
  | d2 :: d1 :: '-' :: m2 :: m1 :: '-' :: y2 :: y1 :: '_' :: a2 :: t :: a1 :: d :: _ =>
    if d.toLower == 'd' && a1.toLower == 'a' && t.toLower == 't' && a2.toLower == 'a'
        && y1.isDigit && y2.isDigit && m1.isDigit && m2.isDigit && d1.isDigit && d2.isDigit then
      let year := 2000 + (digitVal y1 * 10 + digitVal y2)
      let mm := digitVal m1 * 10 + digitVal m2
      let dd := digitVal d1 * 10 + digitVal d2
      if is_valid_ymd year mm dd then
        match caseNumberTail? case_dir_name with
        | some n =>
          some (toString year ++ "-" ++ String.mk [m1, m2] ++ "-" ++ String.mk [d1, d2]
            ++ "_" ++ toString n)
        | none => none
      else none
    else none
  | _ => none

/-- The two characters of a two-digit year. -/
def twoDigitChars (n : Nat) : List Char :=
  [Char.ofNat (48 + n / 10), Char.ofNat (48 + n % 10)]

/-- A `DATA_YY-02-05` directory name for a given two-digit year. -/
def mkDataDirName (yy : Nat) : String :=
  "DATA_" ++ String.mk (twoDigitChars yy) ++ "-02-05"

-- ===============================================
-- Concrete inputs used by counterexamples and witnesses
-- ===============================================

/-- A converter behavior that always succeeds, writing a 3 MB file. -/
def convAlwaysOk : VideoName → ConvResult := fun _ => ⟨0, some 3145728⟩

/-- A well-formed 5 MB source file with an always-succeeding converter. -/
def ctxOk : SourceCtx := ⟨true, 5242880, convAlwaysOk⟩

/-- A directory polluted with 100 invalid (1000-byte) MP4 leftovers at the
bare name and counters 1..99, blocking every name `find_existing_export`
inspects. -/
def pollutedDir : DirState :=
  (⟨"Monitor", none, ".mp4"⟩, 1000) ::
    (List.range 99).map (fun j => (⟨"Monitor", some (j + 1), ".mp4"⟩, 1000))

/-- First controller pass over the polluted directory. -/
def pollutedRun1 : FileOutcome := processOne true false true ctxOk "Monitor" pollutedDir

/-- Second controller pass over the result of the first. -/
def pollutedRun2 : FileOutcome := processOne true false true ctxOk "Monitor" pollutedRun1.dir

/-- The valid artifact the first pass creates (counter 100). -/
def monitor100 : VideoName := ⟨"Monitor", some 100, ".mp4"⟩

/-- A directory holding a single valid 3 MB export of `General_3`. -/
def validGeneralDir : DirState := [(⟨"General_3", none, ".mp4"⟩, 3145728)]

/-- An environment whose converter process stalls forever without emitting
any output: `readline()` never returns, so no loop iteration completes and
no exception is raised. -/
def stalledSilentEnv : ExportEnv := ⟨true, none, [], none⟩

/-- A file of exactly the minimum valid size (1 MB = 1048576 bytes). -/
def oneMbFile : VideoName := ⟨"Cart_Center_2", none, ".mp4"⟩

/-- A directory holding only `oneMbFile`. -/
def oneMbDir : DirState := [(oneMbFile, 1048576)]

/-- A directory holding a valid 2 MB AVI export of `Cart_RT_1`. -/
def aviDir : DirState := [(⟨"Cart_RT_1", none, ".avi"⟩, 2097152)]

/-- Six in-time supervision iterations, each delivering an error-signature
line while the process is still alive. -/
def sixErrorTrace : List LoopObs :=
  [⟨1, none, some "Error writing video frame 10"⟩,
   ⟨2, none, some "Error writing video frame 11"⟩,
   ⟨3, none, some "Error writing video frame 12"⟩,
   ⟨4, none, some "Error writing video frame 13"⟩,
   ⟨5, none, some "Error writing video frame 14"⟩,
   ⟨6, none, some "Error writing video frame 15"⟩]

/-- A source whose converter always exits with code 3 and writes nothing. -/
def ctxFail : SourceCtx := ⟨true, 4096, fun _ => ⟨3, none⟩⟩

/-- One freshly scanned camera row. -/
def sampleUpdates : ScanUpdates := [(⟨"2023-02-05", 1, "Monitor"⟩, (1, some 250))]

/-- Environment where `find_clexport` locates nothing. -/
def envNoTool : ExportEnv := ⟨false, none, [], none⟩

/-- Environment where `Popen` raises. -/
def envStartFail : ExportEnv := ⟨true, some "WinError 5", [], none⟩

/-- Environment where supervising the process raises after no iteration. -/
def envStreamFail : ExportEnv := ⟨true, none, [], some "broken pipe"⟩

-- ===============================================
-- Helper lemmas
-- ===============================================

set_option maxRecDepth 100000

/-- Cross-multiplication characterization of the order on `ℚ`. -/
theorem rat_lt_cross (a b : ℚ) : a < b ↔ a.num * (b.den : Int) < b.num * (a.den : Int) := by
  have ha : (0:ℚ) < (a.den : ℚ) := by exact_mod_cast a.den_pos
  have hb : (0:ℚ) < (b.den : ℚ) := by exact_mod_cast b.den_pos
  conv_lhs => rw [← Rat.num_div_den a, ← Rat.num_div_den b]
  rw [div_lt_div_iff₀ ha hb]
  exact_mod_cast Iff.rfl

/-- `natLtQ` is the comparison `(n : ℚ) < q` (the source's
`(time.time() - start_time) > timeout_secs`). -/
theorem natLtQ_iff (n : Nat) (q : ℚ) : natLtQ n q = true ↔ (n : ℚ) < q := by
  unfold natLtQ
  rw [decide_eq_true_iff, rat_lt_cross]
  simp [Rat.num_natCast, Rat.den_natCast]

/-- A rational times its denominator is its numerator. -/
theorem rat_mul_den (m : ℚ) : m * (m.den : ℚ) = (m.num : ℚ) := by
  have hden : (0:ℚ) < (m.den : ℚ) := by exact_mod_cast m.den_pos
  nth_rewrite 1 [← Rat.num_div_den m]
  exact div_mul_cancel₀ _ (ne_of_gt hden)

/-- `sizeExceedsB` is exactly the source's comparison
`size_bytes / (1024*1024) > min_size_mb` over exact rationals. -/
theorem sizeExceedsB_iff (sz : Nat) (m : ℚ) :
    sizeExceedsB sz m = true ↔ m < (sz : ℚ) / (1024 * 1024) := by
  unfold sizeExceedsB
  rw [decide_eq_true_iff, lt_div_iff₀ (by norm_num : (0:ℚ) < 1024 * 1024)]
  have hden : (0:ℚ) < (m.den : ℚ) := by exact_mod_cast m.den_pos
  constructor
  · intro h
    have h2 : (m.num : ℚ) * (1024 * 1024) < (sz : ℚ) * (m.den : ℚ) := by exact_mod_cast h
    rw [← rat_mul_den m, ← mul_right_comm] at h2
    exact (mul_lt_mul_right hden).mp h2
  · intro h
    have h2 := (mul_lt_mul_right hden).mpr h
    rw [mul_right_comm, rat_mul_den m] at h2
    exact_mod_cast h2

/-- With the default 1 MB floor, validity of a present file is the strict
byte comparison `1048576 < size`. -/
theorem sizeExceedsB_one_iff (sz : Nat) :
    sizeExceedsB sz MIN_VALID_FILE_SIZE_MB = true ↔ 1048576 < sz := by
  unfold sizeExceedsB MIN_VALID_FILE_SIZE_MB
  rw [decide_eq_true_iff]
  rw [Rat.num_ofNat, Rat.den_ofNat]
  omega

/-- `find?` over a filter returns nothing when the filter removed every
entry with the sought name. -/
theorem find?_filter_none (dir : DirState) (p : VideoName × Nat → Bool) (f : VideoName)
    (h : ∀ e ∈ dir, e.1 = f → p e = false) :
    (dir.filter p).find? (fun e => e.1 == f) = none := by
  induction dir with
  | nil => rfl
  | cons e rest ih =>
    have hrest : ∀ x ∈ rest, x.1 = f → p x = false := fun x hx => h x (List.mem_cons_of_mem _ hx)
    by_cases he : e.1 = f
    · have hpe : p e = false := h e (List.mem_cons_self _ _) he
      simp [List.filter_cons, hpe, ih hrest]
    · rw [List.filter_cons]
      by_cases hpe : p e = true
      · simp only [hpe, if_true, List.find?]
        have : (e.1 == f) = false := by simp [he]
        rw [this]
        exact ih hrest
      · simp only [Bool.not_eq_true] at hpe
        simp [hpe, ih hrest]

-- ===============================================
-- C1 — size boundary of the validation guard
-- ===============================================

/-- C1 (counterexample): the claim says a file of exactly the minimum valid
size (exactly 1 MB) is accepted; `is_valid_video_file` uses a strict
comparison, so a present file of exactly 1048576 bytes is rejected. -/
theorem C1_counterexample :
    is_valid_video_file oneMbDir oneMbFile MIN_VALID_FILE_SIZE_MB = false := by decide

/-- C1 (amended): with the default 1 MB floor, a present file is valid iff
its size strictly exceeds 1048576 bytes — so exactly 1 MB is rejected, one
byte under is rejected, and any rejected matching file is deleted by the
clean-invalid step. -/
theorem C1_size_boundary (dir : DirState) (f : VideoName) (sz : Nat)
    (hsz : fileSize? dir f = some sz) (hext : f.ext = ".mp4" ∨ f.ext = ".avi") :
    (is_valid_video_file dir f MIN_VALID_FILE_SIZE_MB = true ↔ 1048576 < sz) ∧
    (sz ≤ 1048576 → path_exists (clean_invalid_exports dir f.stem).1 f = false) := by
  have hvalid : is_valid_video_file dir f MIN_VALID_FILE_SIZE_MB = true ↔ 1048576 < sz := by
    unfold is_valid_video_file
    rw [hsz]
    exact sizeExceedsB_one_iff sz
  refine ⟨hvalid, fun hle => ?_⟩
  have hinvalid : is_valid_video_file dir f MIN_VALID_FILE_SIZE_MB = false := by
    cases h : is_valid_video_file dir f MIN_VALID_FILE_SIZE_MB
    · rfl
    · exact absurd (hvalid.mp h) (by omega)
  have hall : ∀ e ∈ dir, e.1 = f →
      (fun e => !(cleanDoomed dir f.stem e)) e = false := by
    intro e _ he
    simp only [Bool.not_eq_true', Bool.not_eq_false]
    unfold cleanDoomed matchesCleanPattern
    rw [he, hinvalid]
    rcases hext with h | h <;> simp [h]
  unfold clean_invalid_exports path_exists fileSize?
  rw [find?_filter_none dir _ f hall]
  rfl

theorem C1_size_boundary_witness :
    fileSize? oneMbDir oneMbFile = some 1048576 ∧
    (oneMbFile.ext = ".mp4" ∨ oneMbFile.ext = ".avi") ∧
    (is_valid_video_file oneMbDir oneMbFile MIN_VALID_FILE_SIZE_MB = true ↔ 1048576 < 1048576) ∧
    (1048576 ≤ 1048576 → path_exists (clean_invalid_exports oneMbDir oneMbFile.stem).1 oneMbFile = false) :=
  ⟨by decide, by decide,
    (C1_size_boundary oneMbDir oneMbFile 1048576 (by decide) (by decide)).1,
    (C1_size_boundary oneMbDir oneMbFile 1048576 (by decide) (by decide)).2⟩

-- ===============================================
-- C2 — idempotence of the skip-existing second run
-- ===============================================

/-- C2 (counterexample): a completed first run over a directory whose bare
and `_1`..`_99` MP4 names are all occupied by invalid leftovers places its
valid artifact at counter 100; the second run's `find_existing_export`
(which stops at `_99`) misses it, so the file is re-exported instead of
`SKIPPED` and one additional artifact is created. -/
theorem C2_counterexample :
    pollutedRun1.status = ExportStatus.SUCCESS_MP4 ∧
    is_valid_video_file pollutedRun1.dir monitor100 MIN_VALID_FILE_SIZE_MB = true ∧
    pollutedRun2.status ≠ ExportStatus.SKIPPED ∧
    pollutedRun2.dir.length = pollutedRun1.dir.length + 1 := by decide

/-- C2 (amended): whenever the existing valid artifact is one that
`find_existing_export` inspects (bare name or counter at most 99), the
second run with skip-existing enabled (and cleaning disabled) yields
`SKIPPED`, leaves the directory untouched, and creates no artifact. -/
theorem C2_skip_established (fallback_avi : Bool) (ctx : SourceCtx) (base_stem : String)
    (dir : DirState) (h : (find_existing_export dir base_stem).isSome = true) :
    processOne true false fallback_avi ctx base_stem dir =
      { status := ExportStatus.SKIPPED, dir := dir,
        mapWrites := [], logWrites := [ExportStatus.SKIPPED] } := by
  unfold processOne processOneCore
  simp [h]

theorem C2_skip_established_witness :
    (find_existing_export aviDir "Cart_RT_1").isSome = true ∧
    processOne true false true ctxOk "Cart_RT_1" aviDir =
      { status := ExportStatus.SKIPPED, dir := aviDir,
        mapWrites := [], logWrites := [ExportStatus.SKIPPED] } :=
  ⟨by decide, C2_skip_established true ctxOk "Cart_RT_1" aviDir (by decide)⟩

-- ===============================================
-- C3 — camera status codes
-- ===============================================

/-- The running max never drops below its accumulator. -/
theorem maxStep_fold_ge_acc (files : List (Option Nat)) :
    ∀ a : Nat, a ≤ files.foldl maxStep a := by
  induction files with
  | nil => intro a; exact Nat.le_refl a
  | cons s rest ih =>
    intro a
    refine Nat.le_trans ?_ (ih (maxStep a s))
    unfold maxStep
    cases s with
    | none => exact Nat.le_refl a
    | some sz =>
      by_cases h : a < sz
      · simp [h]; omega
      · simp [h]

/-- Every successfully measured size is below the running max. -/
theorem maxStep_fold_ge_mem (files : List (Option Nat)) :
    ∀ (a sz : Nat), some sz ∈ files → sz ≤ files.foldl maxStep a := by
  induction files with
  | nil => intro a sz h; cases h
  | cons s rest ih =>
    intro a sz h
    rcases List.mem_cons.mp h with h | h
    · subst h
      refine Nat.le_trans ?_ (maxStep_fold_ge_acc rest (maxStep a (some sz)))
      unfold maxStep
      by_cases hlt : a < sz
      · simp [hlt]
      · simp [hlt]; omega
    · exact ih (maxStep a s) sz h

/-- C3 (confirmed): with the 200 MB threshold, an absent directory or one
without any `.seq` file yields status 3; a non-empty directory whose
largest file is 199 MB yields status 2 (size 199 MB); a directory
containing a file of exactly 200 MB yields status 1. -/
theorem C3_status_codes (files : List (Option Nat)) :
    compute_camera_status none (200 * 1024 * 1024) = (3, none) ∧
    compute_camera_status (some []) (200 * 1024 * 1024) = (3, none) ∧
    (maxSizeFound files = 199 * 1048576 → files ≠ [] →
      compute_camera_status (some files) (200 * 1024 * 1024) = (2, some 199)) ∧
    (some (200 * 1048576) ∈ files →
      (compute_camera_status (some files) (200 * 1024 * 1024)).1 = 1) := by
  refine ⟨rfl, rfl, ?_, ?_⟩
  · intro hmax hne
    simp only [compute_camera_status]
    rw [hmax]
    have hemp : files.isEmpty = false := by
      cases files
      · exact absurd rfl hne
      · rfl
    rw [hemp]
    norm_num
  · intro hmem
    have hge : 200 * 1048576 ≤ maxSizeFound files := maxStep_fold_ge_mem files 0 _ hmem
    have hemp : files.isEmpty = false := by
      cases files
      · cases hmem
      · rfl
    simp only [compute_camera_status]
    rw [hemp]
    have : 200 * 1024 * 1024 ≤ maxSizeFound files := by omega
    simp [this]

theorem C3_status_codes_witness :
    maxSizeFound [some (199 * 1048576)] = 199 * 1048576 ∧
    ([some (199 * 1048576)] : List (Option Nat)) ≠ [] ∧
    compute_camera_status (some [some (199 * 1048576)]) (200 * 1024 * 1024) = (2, some 199) ∧
    some (200 * 1048576) ∈ [some (200 * 1048576), some 512] ∧
    (compute_camera_status (some [some (200 * 1048576), some 512]) (200 * 1024 * 1024)).1 = 1 :=
  ⟨by decide, by decide,
    (C3_status_codes [some (199 * 1048576)]).2.2.1 (by decide) (by decide),
    by decide,
    (C3_status_codes [some (200 * 1048576), some 512]).2.2.2 (by decide)⟩

-- ===============================================
-- C4 — kill threshold of the supervision loop
-- ===============================================

/-- If the process stays alive and in time throughout a stretch of
iterations that still carries enough signature lines to reach the
threshold, the loop kills with the threshold count. -/
theorem streamLoop_kill_aux (c : String) (T k : Nat) :
    ∀ (trace : List LoopObs) (ec : Nat),
      (∀ obs ∈ trace, natLtQ T obs.elapsed = false ∧ obs.poll = none) →
      ec < k → k ≤ ec + countSig trace →
      streamLoop c (some T) (some k) ec trace = some (1, killedMsg k c) := by
  intro trace
  induction trace with
  | nil =>
    intro ec _ hlt hge
    exfalso
    have h0 : countSig [] = 0 := rfl
    omega
  | cons obs rest ih =>
    intro ec hin hlt hge
    obtain ⟨hto, hpoll⟩ := hin obs (List.mem_cons_self _ _)
    have hrest : ∀ o ∈ rest, natLtQ T o.elapsed = false ∧ o.poll = none :=
      fun o ho => hin o (List.mem_cons_of_mem _ ho)
    simp only [streamLoop, hto, Bool.false_eq_true, if_false, hpoll]
    cases hl : obs.line with
    | none =>
      have hcs : countSig (obs :: rest) = countSig rest := by
        unfold countSig
        rw [List.countP_cons]
        simp [hl]
      exact ih ec hrest hlt (by omega)
    | some l =>
      cases hsig : containsSignature l with
      | false =>
        have hcs : countSig (obs :: rest) = countSig rest := by
          unfold countSig
          rw [List.countP_cons]
          simp [hl, hsig]
        simp only [hsig, Bool.false_eq_true, if_false]
        exact ih ec hrest hlt (by omega)
      | true =>
        have hcs : countSig (obs :: rest) = countSig rest + 1 := by
          unfold countSig
          rw [List.countP_cons]
          simp [hl, hsig]
        simp only [hsig, if_true]
        by_cases hk2 : k ≤ ec + 1
        · have hkeq : k = ec + 1 := by omega
          simp [hk2, hkeq]
        · simp only [decide_eq_true_eq, hk2, if_false]
          exact ih (ec + 1) hrest (by omega) (by omega)

/-- C4 (confirmed): a non-simulated capture-mode attempt whose output shows
the error signature on at least `kill_after_error_lines` lines, all while
the process is alive and before the timeout, is killed and reported with
the repeated-error message and exit status 1 — not success, not timeout. -/
theorem C4_kill_threshold (c : String) (T k : Nat) (trace : List LoopObs)
    (hk : 1 ≤ k)
    (hin : ∀ obs ∈ trace, natLtQ T obs.elapsed = false ∧ obs.poll = none)
    (hcount : k ≤ countSig trace) :
    streamLoop c (some T) (some k) 0 trace = some (1, killedMsg k c) :=
  streamLoop_kill_aux c T k trace 0 hin (by omega) (by omega)

theorem C4_kill_threshold_witness :
    1 ≤ KILL_AFTER_ERROR_LINES ∧
    (∀ obs ∈ sixErrorTrace, natLtQ TIMEOUT_SECS obs.elapsed = false ∧ obs.poll = none) ∧
    KILL_AFTER_ERROR_LINES ≤ countSig sixErrorTrace ∧
    streamLoop "mp4" (some TIMEOUT_SECS) (some KILL_AFTER_ERROR_LINES) 0 sixErrorTrace =
      some (1, killedMsg KILL_AFTER_ERROR_LINES "mp4") :=
  ⟨by decide, by decide, by decide,
    C4_kill_threshold "mp4" TIMEOUT_SECS KILL_AFTER_ERROR_LINES sixErrorTrace
      (by decide) (by decide) (by decide)⟩

-- ===============================================
-- C5 — timeout enforcement against a stalled silent process
-- ===============================================

/-- C5 (code bug): when the converter process stays alive but writes no
output line, `readline()` blocks forever, so the supervision loop completes
no iteration: for every timeout and kill-threshold setting the loop
produces no outcome over the empty observation sequence, and the whole
call never returns — the docstring's promised hard timeout is not
enforced and no `(1, timed out)` result is ever produced. -/
theorem C5_stalled_silent_blocks :
    (∀ (t k ec : Nat) (c : String), streamLoop c (some t) (some k) ec [] = none) ∧
    export_seq_once_streaming "seq" "out" "mp4" false
      (some TIMEOUT_SECS) (some KILL_AFTER_ERROR_LINES) stalledSilentEnv = none :=
  ⟨fun _ _ _ _ => rfl, rfl⟩


-- ===============================================
-- C6 — manifest and log writes per terminal state
-- ===============================================

/-- The attempt phase only ever reports FAILED or a success status. -/
theorem attemptPhase_not_skipped (ctx : SourceCtx) (fb : Bool) (base : String)
    (dir : DirState) :
    (attemptPhase ctx fb base dir).1 ≠ some ExportStatus.SKIPPED := by
  unfold attemptPhase
  by_cases h1 : (!ctx.srcExists) = true
  · simp [h1]
  · by_cases h2 : ctx.srcSize = 0
    · simp [h1, h2]
    · rcases hg : get_next_available_filename dir base ".mp4" with _ | f
      · simp [h1, h2]
      · by_cases h3 : (attemptLoop ctx.conv f MAX_RETRIES_MP4 dir).1 = true
        · simp [h1, h2, h3]
        · cases fb
          · simp [h1, h2, h3]
          · rcases hga : get_next_available_filename
                (attemptLoop ctx.conv f MAX_RETRIES_MP4 dir).2 base ".avi" with _ | g
            · simp [h1, h2, h3, hga]
            · by_cases h5 : (attemptLoop ctx.conv g MAX_RETRIES_AVI
                  (attemptLoop ctx.conv f MAX_RETRIES_MP4 dir).2).1 = true
              · simp [h1, h2, h3, h5, hga]
              · simp [h1, h2, h3, h5, hga]

/-- Write behavior of the post-cleaning per-file body, by terminal state. -/
theorem processOneCore_logging (se fb : Bool) (ctx : SourceCtx) (base : String)
    (dirC : DirState) :
    ((processOneCore se fb ctx base dirC).status = ExportStatus.SUCCESS_MP4 ∨
     (processOneCore se fb ctx base dirC).status = ExportStatus.SUCCESS_AVI ∨
     (processOneCore se fb ctx base dirC).status = ExportStatus.FAILED →
      (processOneCore se fb ctx base dirC).mapWrites = [(processOneCore se fb ctx base dirC).status] ∧
      (processOneCore se fb ctx base dirC).logWrites = [(processOneCore se fb ctx base dirC).status]) ∧
    ((processOneCore se fb ctx base dirC).status = ExportStatus.SKIPPED →
      (processOneCore se fb ctx base dirC).mapWrites = [] ∧
      (processOneCore se fb ctx base dirC).logWrites = [ExportStatus.SKIPPED]) := by
  unfold processOneCore
  by_cases hskip : (se && (find_existing_export dirC base).isSome) = true
  · rw [if_pos hskip]
    refine ⟨fun h => ?_, fun _ => ⟨rfl, rfl⟩⟩
    rcases h with h | h | h <;> exact ExportStatus.noConfusion h
  · rw [if_neg hskip]
    rcases happ : attemptPhase ctx fb base dirC with ⟨st?, dir2⟩
    cases st? with
    | none =>
      refine ⟨fun h => ?_, fun h => ?_⟩
      · rcases h with h | h | h <;> exact ExportStatus.noConfusion h
      · exact ExportStatus.noConfusion h
    | some st =>
      refine ⟨fun _ => ⟨rfl, rfl⟩, fun h => ?_⟩
      have hns := attemptPhase_not_skipped ctx fb base dirC
      rw [happ] at hns
      exact absurd (congrArg some h) hns

/-- C6 (counterexample): a file whose valid artifact already exists ends in
`SKIPPED`, and the skip path appends nothing to the per-directory mapping
manifest (it only logs) — contradicting the claim that every terminal
state reaches both sinks. -/
theorem C6_counterexample :
    (processOne true false true ctxOk "General_3" validGeneralDir).status =
      ExportStatus.SKIPPED ∧
    (processOne true false true ctxOk "General_3" validGeneralDir).mapWrites = [] := by
  decide

/-- C6 (amended): the attempt-phase terminal states (`SUCCESS_MP4`,
`SUCCESS_AVI`, `FAILED`) are written once to the mapping manifest and once
to the run log; `SKIPPED` is written only to the run log and never to the
manifest. -/
theorem C6_terminal_logging (se ci fb : Bool) (ctx : SourceCtx) (base : String)
    (dir : DirState) :
    ((processOne se ci fb ctx base dir).status = ExportStatus.SUCCESS_MP4 ∨
     (processOne se ci fb ctx base dir).status = ExportStatus.SUCCESS_AVI ∨
     (processOne se ci fb ctx base dir).status = ExportStatus.FAILED →
      (processOne se ci fb ctx base dir).mapWrites = [(processOne se ci fb ctx base dir).status] ∧
      (processOne se ci fb ctx base dir).logWrites = [(processOne se ci fb ctx base dir).status]) ∧
    ((processOne se ci fb ctx base dir).status = ExportStatus.SKIPPED →
      (processOne se ci fb ctx base dir).mapWrites = [] ∧
      (processOne se ci fb ctx base dir).logWrites = [ExportStatus.SKIPPED]) := by
  unfold processOne
  exact processOneCore_logging se fb ctx base _

theorem C6_terminal_logging_witness :
    (processOne true false false ctxFail "Cart_LT_4" []).status = ExportStatus.FAILED ∧
    (processOne true false false ctxFail "Cart_LT_4" []).mapWrites =
      [(processOne true false false ctxFail "Cart_LT_4" []).status] ∧
    (processOne true false false ctxFail "Cart_LT_4" []).logWrites =
      [(processOne true false false ctxFail "Cart_LT_4" []).status] :=
  ⟨by decide,
    ((C6_terminal_logging true false false ctxFail "Cart_LT_4" []).1
      (Or.inr (Or.inr (by decide)))).1,
    ((C6_terminal_logging true false false ctxFail "Cart_LT_4" []).1
      (Or.inr (Or.inr (by decide)))).2⟩

-- ===============================================
-- C7 — confirm-then-commit gate of the scanner
-- ===============================================

/-- C7 (confirmed): with dry-run off, the scanner's upsert/commit step runs
iff the staged diff (new entries plus changed entries) is non-empty and the
stripped, lowered response is 'y' or 'yes'; and whenever the staged diff is
empty, no prompt is shown and nothing is written. -/
theorem C7_confirm_gate (updates : ScanUpdates) (store : StoreState) (response : String) :
    ((scanner_confirm_and_commit updates store false response).wrote = true ↔
      ((staged_new updates store ≠ [] ∨ staged_changes updates store ≠ []) ∧
        (py_strip_lower response = "y" ∨ py_strip_lower response = "yes"))) ∧
    (staged_new updates store = [] → staged_changes updates store = [] →
      scanner_confirm_and_commit updates store false response = ⟨false, false⟩) := by
  unfold scanner_confirm_and_commit
  cases updates with
  | nil =>
    constructor
    · simp [staged_new, staged_changes]
    · intro _ _
      rfl
  | cons u us =>
    rw [if_neg (by simp : ¬((u :: us).isEmpty = true))]
    rw [if_neg (by simp : ¬(false = true))]
    by_cases hd : ((staged_new (u :: us) store).isEmpty &&
        (staged_changes (u :: us) store).isEmpty) = true
    · rw [if_pos hd]
      rcases Bool.and_eq_true_iff.mp hd with ⟨hd1, hd2⟩
      rw [List.isEmpty_iff] at hd1 hd2
      constructor
      · simp [hd1, hd2]
      · intro _ _
        rfl
    · rw [if_neg hd]
      have hne : staged_new (u :: us) store ≠ [] ∨ staged_changes (u :: us) store ≠ [] := by
        by_contra hcon
        push_neg at hcon
        exact hd (by simp [hcon.1, hcon.2])
      by_cases hy : py_strip_lower response = "y" ∨ py_strip_lower response = "yes"
      · rw [if_pos hy]
        refine ⟨⟨fun _ => ⟨hne, hy⟩, fun _ => rfl⟩, fun h1 h2 => ?_⟩
        exact absurd (by simp [h1, h2]) hd
      · rw [if_neg hy]
        refine ⟨?_, fun h1 h2 => ?_⟩
        · simp [hy]
        · exact absurd (by simp [h1, h2]) hd

theorem C7_confirm_gate_witness :
    ((scanner_confirm_and_commit sampleUpdates [] false " YES ").wrote = true ↔
      ((staged_new sampleUpdates [] ≠ [] ∨ staged_changes sampleUpdates [] ≠ []) ∧
        (py_strip_lower " YES " = "y" ∨ py_strip_lower " YES " = "yes"))) ∧
    (scanner_confirm_and_commit sampleUpdates [] false " YES ").wrote = true :=
  ⟨(C7_confirm_gate sampleUpdates [] " YES ").1,
    (C7_confirm_gate sampleUpdates [] " YES ").1.mpr
      ⟨Or.inl (by decide), Or.inr (by decide)⟩⟩

-- ===============================================
-- C8 — two-digit-year century windowing
-- ===============================================

/-- C8 (counterexample): the claim places two-digit years ≤ 69 in the 1900s
for `parse_recording_date_and_case`; the code maps them to the 2000s
(`DATA_23-...` parses to 2023, not 1923). -/
theorem C8_counterexample :
    parse_recording_date_and_case "DATA_23-02-05" "Case1" = some ("2023-02-05", 1) ∧
    parse_recording_date_and_case "DATA_23-02-05" "Case1" ≠ some ("1923-02-05", 1) := by
  decide

/-- C8 (amended): the windowing differs between the two code paths, with
the centuries the code actually uses: `parse_recording_date_and_case` maps
two-digit years ≤ 69 to the 2000s and years ≥ 70 to the 1900s, while
`parse_date_case` always maps to the 2000s. -/
theorem C8_century_window (yy : Nat) (h : yy < 100) :
    parse_recording_date_and_case (mkDataDirName yy) "Case1" =
      some ((if yy ≤ 69 then "20" else "19") ++ String.mk (twoDigitChars yy) ++ "-02-05", 1) ∧
    parse_date_case (mkDataDirName yy) "Case1" = some (toString (2000 + yy) ++ "-02-05_1") := by
  revert yy
  decide

theorem C8_century_window_witness :
    (75 : Nat) < 100 ∧
    (parse_recording_date_and_case (mkDataDirName 75) "Case1" =
      some ((if (75 : Nat) ≤ 69 then "20" else "19") ++ String.mk (twoDigitChars 75) ++ "-02-05", 1) ∧
     parse_date_case (mkDataDirName 75) "Case1" = some (toString (2000 + 75) ++ "-02-05_1")) :=
  ⟨by decide, C8_century_window 75 (by decide)⟩

-- ===============================================
-- C9 — ambiguous discovery directories
-- ===============================================

/-- C9 (counterexample): a directory with two `.seq` candidates does not
flag the ambiguity at its interface — it silently yields the first
candidate in sorted order. -/
theorem C9_counterexample :
    expand_seq_paths [SeqPathEntry.dir ["b.seq", "a.seq"]] = ["a.seq"] ∧
    "a.seq" ∈ ["b.seq", "a.seq"] := by decide

/-- C9 (amended): a directory input always contributes the first of its
sorted candidates (nothing when it has none): a warning is printed only in
debug mode and more than one candidate is never rejected; a directory with
exactly one matching file yields that file. -/
theorem C9_first_of_sorted :
    (∀ seqs, expand_seq_paths [SeqPathEntry.dir seqs] = (sortStrings seqs).take 1) ∧
    (∀ f, expand_seq_paths [SeqPathEntry.dir [f]] = [f]) := by
  constructor
  · intro seqs
    cases h : sortStrings seqs <;> simp [expand_seq_paths, h]
  · intro f
    rfl

-- ===============================================
-- C10 — totality and exception mapping of the export engine
-- ===============================================

/-- C10 (counterexample): the claim says the function returns a structured
pair for every input; over a converter process that stalls forever in
silence the call never returns at all (the supervision loop stays blocked
in `readline()`), so there is no returned pair. -/
theorem C10_counterexample :
    export_seq_once_streaming "seq" "out" "avi" false (some 40) (some 12)
      stalledSilentEnv = none := rfl

/-- C10 (amended): the engine never propagates an exception — a missing
converter binary, a process-start failure and an exception during
supervision are each mapped to a returned `(1, reason)` pair — but it is
not total: a stalled silent process keeps the call from returning. -/
theorem C10_exception_mapping (seqPath outName container : String)
    (t k : Option Nat) (env : ExportEnv) :
    (env.clexportFound = false →
      export_seq_once_streaming seqPath outName container false t k env =
        some (1, notFoundMsg)) ∧
    (∀ e, env.clexportFound = true → env.startExcMsg = some e →
      export_seq_once_streaming seqPath outName container false t k env =
        some (1, "Exception starting CLExport: " ++ e ++ " (" ++ container ++ ")")) ∧
    (∀ e, env.clexportFound = true → env.startExcMsg = none →
      streamLoop container t k 0 env.obs = none → env.streamExcMsg = some e →
      export_seq_once_streaming seqPath outName container false t k env =
        some (1, "Exception while streaming CLExport output: " ++ e ++ " (" ++ container ++ ")")) := by
  refine ⟨?_, ?_, ?_⟩
  · intro h
    unfold export_seq_once_streaming
    simp [h]
  · intro e h1 h2
    unfold export_seq_once_streaming
    simp [h1, h2]
  · intro e h1 h2 h3 h4
    unfold export_seq_once_streaming
    simp [h1, h2, h3, h4]

theorem C10_exception_mapping_witness :
    export_seq_once_streaming "s" "o" "mp4" false (some 20) (some 6) envNoTool =
      some (1, notFoundMsg) ∧
    export_seq_once_streaming "s" "o" "mp4" false (some 20) (some 6) envStartFail =
      some (1, "Exception starting CLExport: " ++ "WinError 5" ++ " (" ++ "mp4" ++ ")") ∧
    export_seq_once_streaming "s" "o" "mp4" false (some 20) (some 6) envStreamFail =
      some (1, "Exception while streaming CLExport output: " ++ "broken pipe" ++ " (" ++ "mp4" ++ ")") :=
  ⟨(C10_exception_mapping "s" "o" "mp4" (some 20) (some 6) envNoTool).1 rfl,
   (C10_exception_mapping "s" "o" "mp4" (some 20) (some 6) envStartFail).2.1 "WinError 5" rfl rfl,
   (C10_exception_mapping "s" "o" "mp4" (some 20) (some 6) envStreamFail).2.2 "broken pipe" rfl rfl rfl rfl⟩
